import Mathlib

/-!
Verification development for the Lens-b repository: an Express/Mongoose/Cloudinary
service cataloguing paired before/after photographs.

The repository ships three evolutionary variants of the image router:
- variant 1 (src/unnamed/part_002, first router): both images required at create,
  eager low-resolution preview generated on upload;
- variant 2 (src/unnamed/part_002, second router): the before image is optional at
  create and replaced by a synthetic placeholder reference
  (public_id `placeholders/no-image-<Date.now()>`); adds the like route;
- variant 3 (src/unnamed/part_003): both images required, validates title and
  description up front, search falls back from title to description.

Each route handler is embedded as a pure Lean function over an explicit document
store, parameterised by oracles for the Cloudinary upload and destroy network calls.
Every network side effect and document-store mutation is recorded in an event trace,
so ordering claims (upload versus delete of the old object, concurrent fan-out of
the two create uploads) become statements about the trace.
-/

namespace LensB

/-- Opaque binary buffer held in multer memory storage. -/
abbrev Buffer := Nat

/-- Result of one `cloudinary.uploader.upload_stream` call: the optimized asset's
URL, its public_id handle, and the eagerly derived blurred preview URL (the eager
transformation is configured on every variant-1 upload). -/
structure CloudResult where
  secure_url : String
  public_id : String
  eagerUrl : String
deriving DecidableEq, Repr

/-- One side's stored asset subdocument (`beforeImage` / `afterImage` in
`src/models/Image.js`); `placeholderUrl` is the extra preview field that only
variant 1 writes (schema variant src/unnamed/part_000). -/
structure AssetRef where
  url : String
  public_id : String
  placeholderUrl : Option String := none
deriving DecidableEq, Repr

/-- An Entry Record as declared by ImageSchema in `src/models/Image.js`:
title, description, the two asset subdocuments, and createdAt.
Note: no schema variant declares a `likes` or `likeCount` path. -/
structure ImageDoc where
  title : String
  description : String
  beforeImage : AssetRef
  afterImage : AssetRef
  createdAt : Nat
deriving DecidableEq, Repr

/-- Which image side an upload belongs to. -/
inductive Side
  | before
  | after
deriving DecidableEq, Repr

/-- Observable network / document-store events emitted by a route handler.
`uploadIssue` marks an upload request being started, `uploadDone` its completion
(carrying the resulting public_id), `destroy` a `cloudinary.uploader.destroy` call
with the identifier it was passed. -/
inductive Ev
  | uploadIssue (s : Side)
  | uploadDone (s : Side) (pid : String)
  | destroy (pid : String)
  | dbInsert
  | dbUpdate
  | dbDelete
deriving DecidableEq, Repr

/-- HTTP-level failure responses as produced by the route handlers. -/
inductive Err
  | badRequest (msg : String)
  | notFound (msg : String)
  | server (msg : String)
deriving DecidableEq, Repr

/-- The image collection: documents keyed by their assigned identity. -/
abbrev Store := List (Nat × ImageDoc)

/-- Outcome of one request: the event trace, the post-request store, and either
the JSON payload or the error response. -/
structure OpResult (α : Type) where
  trace : List Ev
  store : Store
  out : Except Err α

/-- Oracle for `uploadToCloudinary`: per buffer, the upload either fails
(network / service error) or yields a CloudResult. -/
abbrev Up := Buffer → Except String CloudResult

/-- Oracle for `cloudinary.uploader.destroy`: per identifier, success or failure. -/
abbrev Des := String → Except String Unit

/-- `Image.findById`. -/
def findById (s : Store) (id : Nat) : Option ImageDoc :=
  (s.find? (fun p => p.1 == id)).map (fun p => p.2)

/-- Replace the document stored under `id`. -/
def setById (s : Store) (id : Nat) (d : ImageDoc) : Store :=
  s.map (fun p => if p.1 == id then (id, d) else p)

/-- `deleteOne`: remove the document stored under `id`. -/
def removeById (s : Store) (id : Nat) : Store :=
  s.filter (fun p => p.1 != id)

/-- Fresh identity assigned by the document store on insert. -/
def freshId (s : Store) : Nat :=
  s.foldr (fun p acc => max (p.1 + 1) acc) 0

/-- Mongoose `required: true` validation run by `document.save()`: every declared
required string path of ImageSchema (`src/models/Image.js`) must be non-empty. -/
def validDoc (d : ImageDoc) : Bool :=
  !d.title.isEmpty && !d.description.isEmpty &&
  !d.beforeImage.url.isEmpty && !d.beforeImage.public_id.isEmpty &&
  !d.afterImage.url.isEmpty && !d.afterImage.public_id.isEmpty

/-- Asset subdocument built from an upload result without the preview field
(variants 2 and 3). -/
def toAsset (r : CloudResult) : AssetRef :=
  { url := r.secure_url, public_id := r.public_id }

/-- Asset subdocument built from an upload result including the eager preview URL
(variant 1, `placeholder: result.eager[0].secure_url`). -/
def toAssetEager (r : CloudResult) : AssetRef :=
  { url := r.secure_url, public_id := r.public_id, placeholderUrl := some r.eagerUrl }

/-- The JS placeholder test `public_id.startsWith('placeholders/')`
(src/unnamed/part_002 lines 318 and 362), placed on the character-list view of
the string. -/
def isPlaceholderId (pid : String) : Bool :=
  "placeholders/".data.isPrefixOf pid.data

/-- The synthetic before-side reference built by variant 2 when no before buffer
is supplied (src/unnamed/part_002 lines 276-281). -/
def placeholderBefore (now : Nat) : AssetRef :=
  { url := "https://via.placeholder.com/1200x1200.png?text=No+Before+Image",
    public_id := "placeholders/no-image-" ++ toString now }

/-- Persist a freshly constructed document (`new Image(...); await newImage.save()`):
mongoose validation, then insert under a fresh identity. A validation failure is
caught by the route's catch-all and surfaces as the route's 500 message. -/
def persistNew (store : Store) (tr : List Ev) (failMsg : String) (doc : ImageDoc) :
    OpResult ImageDoc :=
  if validDoc doc then
    { trace := tr ++ [Ev.dbInsert], store := store ++ [(freshId store, doc)],
      out := .ok doc }
  else
    { trace := tr, store := store, out := .error (.server failMsg) }

/-- Create, variant 1 (src/unnamed/part_002 lines 77-113): both buffers required,
`Promise.all` fan-out of the two uploads (both issued before either completion is
awaited), eager preview stored on both sides. -/
def createV1 (up : Up) (store : Store) (now : Nat)
    (title description : Option String) (beforeBuf afterBuf : Option Buffer) :
    OpResult ImageDoc :=
  match beforeBuf, afterBuf with
  | some bb, some ab =>
    match up bb, up ab with
    | .ok rb, .ok ra =>
      persistNew store
        [Ev.uploadIssue .before, Ev.uploadIssue .after,
         Ev.uploadDone .before rb.public_id, Ev.uploadDone .after ra.public_id]
        "Failed to upload images."
        { title := title.getD "", description := description.getD "",
          beforeImage := toAssetEager rb, afterImage := toAssetEager ra,
          createdAt := now }
    | _, _ =>
      { trace := [Ev.uploadIssue .before, Ev.uploadIssue .after], store := store,
        out := .error (.server "Failed to upload images.") }
  | _, _ =>
    { trace := [], store := store,
      out := .error (.badRequest "Both \"before\" and \"after\" images are required.") }

/-- Create, variant 2 (src/unnamed/part_002 lines 248-297): only the after buffer
is required; the after upload is awaited first, then — sequentially — the optional
before upload, or the synthetic placeholder reference when no before buffer was
sent. -/
def createV2 (up : Up) (store : Store) (now : Nat)
    (title description : Option String) (beforeBuf afterBuf : Option Buffer) :
    OpResult ImageDoc :=
  match afterBuf with
  | none =>
    { trace := [], store := store,
      out := .error (.badRequest "The \"After\" image is required.") }
  | some ab =>
    match up ab with
    | .error _ =>
      { trace := [Ev.uploadIssue .after], store := store,
        out := .error (.server "Failed to upload image set.") }
    | .ok ra =>
      match beforeBuf with
      | some bb =>
        match up bb with
        | .error _ =>
          { trace := [Ev.uploadIssue .after, Ev.uploadDone .after ra.public_id,
                      Ev.uploadIssue .before],
            store := store, out := .error (.server "Failed to upload image set.") }
        | .ok rb =>
          persistNew store
            [Ev.uploadIssue .after, Ev.uploadDone .after ra.public_id,
             Ev.uploadIssue .before, Ev.uploadDone .before rb.public_id]
            "Failed to upload image set."
            { title := title.getD "", description := description.getD "",
              beforeImage := toAsset rb, afterImage := toAsset ra, createdAt := now }
      | none =>
        persistNew store
          [Ev.uploadIssue .after, Ev.uploadDone .after ra.public_id]
          "Failed to upload image set."
          { title := title.getD "", description := description.getD "",
            beforeImage := placeholderBefore now, afterImage := toAsset ra,
            createdAt := now }

/-- JS falsy test for an optional request-body string: absent or empty. -/
def isBlank : Option String → Bool
  | none => true
  | some s => s.isEmpty

/-- Create, variant 3 (src/unnamed/part_003 lines 52-79): title, description and
both buffers are checked up front (fixed message), then `Promise.all` fan-out of
the two uploads. -/
def createV3 (up : Up) (store : Store) (now : Nat)
    (title description : Option String) (beforeBuf afterBuf : Option Buffer) :
    OpResult ImageDoc :=
  if isBlank title || isBlank description || beforeBuf.isNone || afterBuf.isNone then
    { trace := [], store := store,
      out := .error (.badRequest "All fields are required.") }
  else
    match beforeBuf, afterBuf with
    | some bb, some ab =>
      match up bb, up ab with
      | .ok rb, .ok ra =>
        persistNew store
          [Ev.uploadIssue .before, Ev.uploadIssue .after,
           Ev.uploadDone .before rb.public_id, Ev.uploadDone .after ra.public_id]
          "Failed to upload images."
          { title := title.getD "", description := description.getD "",
            beforeImage := toAsset rb, afterImage := toAsset ra, createdAt := now }
      | _, _ =>
        { trace := [Ev.uploadIssue .before, Ev.uploadIssue .after], store := store,
          out := .error (.server "Failed to upload images.") }
    | _, _ =>
      { trace := [], store := store,
        out := .error (.badRequest "All fields are required.") }

/-- One side of an update when a new buffer was sent: in every route variant the
handler first awaits `destroy` on the old identifier (when `doDestroy`, i.e. unless
variant 2's placeholder guard suppresses it) and only then awaits the upload of the
new buffer. Returns the side's events and the new asset subdocument. -/
def replaceSide (up : Up) (des : Des) (eager doDestroy : Bool)
    (oldId : String) (bb : Buffer) (s : Side) (failMsg : String) :
    List Ev × Except Err AssetRef :=
  match (if doDestroy then ([Ev.destroy oldId], des oldId) else ([], .ok ())) with
  | (dtr, .error _) => (dtr, .error (.server failMsg))
  | (dtr, .ok _) =>
    match up bb with
    | .error _ => (dtr ++ [Ev.uploadIssue s], .error (.server failMsg))
    | .ok r =>
      (dtr ++ [Ev.uploadIssue s, Ev.uploadDone s r.public_id],
       .ok (if eager then toAssetEager r else toAsset r))

/-- One side of an update: nothing happens when no new buffer was sent for it. -/
def sideStep (up : Up) (des : Des) (eager doDestroy : Bool)
    (oldId : String) (buf : Option Buffer) (s : Side) (failMsg : String) :
    List Ev × Except Err (Option AssetRef) :=
  match buf with
  | none => ([], .ok none)
  | some bb =>
    match replaceSide up des eager doDestroy oldId bb s failMsg with
    | (t, .error e) => (t, .error e)
    | (t, .ok a) => (t, .ok (some a))

/-- The update object passed to `findByIdAndUpdate`; `none` entries model
`undefined` request-body values, which mongoose (v6+) strips from the update, so
the corresponding stored field is left unchanged. -/
structure UpdateData where
  title : Option String := none
  description : Option String := none
  beforeImage : Option AssetRef := none
  afterImage : Option AssetRef := none

/-- Apply a `$set` update to a document, skipping stripped (`none`) paths. -/
def applySet (d : ImageDoc) (u : UpdateData) : ImageDoc :=
  { d with
    title := u.title.getD d.title,
    description := u.description.getD d.description,
    beforeImage := u.beforeImage.getD d.beforeImage,
    afterImage := u.afterImage.getD d.afterImage }

/-- Update, variant 1 (src/unnamed/part_002 lines 119-162): per supplied side,
destroy the old object unconditionally, then upload the new buffer (with eager
preview); finally `findByIdAndUpdate` with the collected update object. -/
def updateV1 (up : Up) (des : Des) (store : Store) (id : Nat)
    (titleOpt descOpt : Option String) (beforeBuf afterBuf : Option Buffer) :
    OpResult ImageDoc :=
  match findById store id with
  | none => { trace := [], store := store,
              out := .error (.notFound "Image entry not found.") }
  | some entry =>
    match sideStep up des true true entry.beforeImage.public_id beforeBuf .before
        "Failed to update entry." with
    | (tb, .error e) => { trace := tb, store := store, out := .error e }
    | (tb, .ok nb) =>
      match sideStep up des true true entry.afterImage.public_id afterBuf .after
          "Failed to update entry." with
      | (ta, .error e) => { trace := tb ++ ta, store := store, out := .error e }
      | (ta, .ok na) =>
        let d := applySet entry
          { title := titleOpt, description := descOpt,
            beforeImage := nb, afterImage := na }
        { trace := tb ++ ta ++ [Ev.dbUpdate], store := setById store id d,
          out := .ok d }

/-- Variant 2's guard before destroying the old before-side object
(src/unnamed/part_002 line 318): the subdocument's public_id must be truthy
(non-empty) and must not carry the placeholder marker. -/
def v2BeforeDestroyGuard (entry : ImageDoc) : Bool :=
  !entry.beforeImage.public_id.isEmpty && !isPlaceholderId entry.beforeImage.public_id

/-- Update, variant 2 (src/unnamed/part_002 lines 303-345): like variant 1 without
the eager preview, except that the old before-side object is only destroyed when it
is not a placeholder; the old after-side object is destroyed unconditionally. -/
def updateV2 (up : Up) (des : Des) (store : Store) (id : Nat)
    (titleOpt descOpt : Option String) (beforeBuf afterBuf : Option Buffer) :
    OpResult ImageDoc :=
  match findById store id with
  | none => { trace := [], store := store,
              out := .error (.notFound "Image entry not found.") }
  | some entry =>
    match sideStep up des false (v2BeforeDestroyGuard entry)
        entry.beforeImage.public_id beforeBuf .before "Failed to update entry." with
    | (tb, .error e) => { trace := tb, store := store, out := .error e }
    | (tb, .ok nb) =>
      match sideStep up des false true entry.afterImage.public_id afterBuf .after
          "Failed to update entry." with
      | (ta, .error e) => { trace := tb ++ ta, store := store, out := .error e }
      | (ta, .ok na) =>
        let d := applySet entry
          { title := titleOpt, description := descOpt,
            beforeImage := nb, afterImage := na }
        { trace := tb ++ ta ++ [Ev.dbUpdate], store := setById store id d,
          out := .ok d }

/-- JS `newValue || entry.field` used by variant 3's text overrides
(src/unnamed/part_003 lines 88-89): absent or empty keeps the stored value. -/
def jsOr (v : Option String) (old : String) : String :=
  match v with
  | none => old
  | some s => if s.isEmpty then old else s

/-- Update, variant 3 (src/unnamed/part_003 lines 82-108): text overrides via
`||`, destroy-then-upload per supplied side, then `entry.save()` (which re-runs
schema validation). -/
def updateV3 (up : Up) (des : Des) (store : Store) (id : Nat)
    (titleOpt descOpt : Option String) (beforeBuf afterBuf : Option Buffer) :
    OpResult ImageDoc :=
  match findById store id with
  | none => { trace := [], store := store,
              out := .error (.notFound "Entry not found") }
  | some entry =>
    match sideStep up des false true entry.beforeImage.public_id beforeBuf .before
        "Server Error" with
    | (tb, .error e) => { trace := tb, store := store, out := .error e }
    | (tb, .ok nb) =>
      match sideStep up des false true entry.afterImage.public_id afterBuf .after
          "Server Error" with
      | (ta, .error e) => { trace := tb ++ ta, store := store, out := .error e }
      | (ta, .ok na) =>
        let d : ImageDoc :=
          { entry with
            title := jsOr titleOpt entry.title,
            description := jsOr descOpt entry.description,
            beforeImage := nb.getD entry.beforeImage,
            afterImage := na.getD entry.afterImage }
        if validDoc d then
          { trace := tb ++ ta ++ [Ev.dbUpdate], store := setById store id d,
            out := .ok d }
        else
          { trace := tb ++ ta, store := store,
            out := .error (.server "Server Error") }

/-- Delete, variant 1 (src/unnamed/part_002 lines 168-189): `Promise.all` destroy
of both identifiers, then `deleteOne`; any destroy failure aborts before the
document delete. -/
def deleteV1 (des : Des) (store : Store) (id : Nat) : OpResult String :=
  match findById store id with
  | none => { trace := [], store := store,
              out := .error (.notFound "Image entry not found.") }
  | some e =>
    match des e.beforeImage.public_id, des e.afterImage.public_id with
    | .ok _, .ok _ =>
      { trace := [Ev.destroy e.beforeImage.public_id,
                  Ev.destroy e.afterImage.public_id, Ev.dbDelete],
        store := removeById store id, out := .ok "Image entry deleted successfully." }
    | _, _ =>
      { trace := [Ev.destroy e.beforeImage.public_id,
                  Ev.destroy e.afterImage.public_id],
        store := store, out := .error (.server "Failed to delete entry.") }

/-- Delete, variant 2 (src/unnamed/part_002 lines 351-374): destroy the after-side
object first, then the before-side object only when its identifier is truthy and
not a placeholder, then `deleteOne`. -/
def deleteV2 (des : Des) (store : Store) (id : Nat) : OpResult String :=
  match findById store id with
  | none => { trace := [], store := store,
              out := .error (.notFound "Image entry not found.") }
  | some e =>
    match des e.afterImage.public_id with
    | .error _ =>
      { trace := [Ev.destroy e.afterImage.public_id], store := store,
        out := .error (.server "Failed to delete entry.") }
    | .ok _ =>
      if v2BeforeDestroyGuard e then
        match des e.beforeImage.public_id with
        | .error _ =>
          { trace := [Ev.destroy e.afterImage.public_id,
                      Ev.destroy e.beforeImage.public_id],
            store := store, out := .error (.server "Failed to delete entry.") }
        | .ok _ =>
          { trace := [Ev.destroy e.afterImage.public_id,
                      Ev.destroy e.beforeImage.public_id, Ev.dbDelete],
            store := removeById store id,
            out := .ok "Image entry deleted successfully." }
      else
        { trace := [Ev.destroy e.afterImage.public_id, Ev.dbDelete],
          store := removeById store id,
          out := .ok "Image entry deleted successfully." }

/-- Delete, variant 3 (src/unnamed/part_003 lines 111-127): `Promise.all` destroy
of both identifiers, then `Image.deleteOne`. -/
def deleteV3 (des : Des) (store : Store) (id : Nat) : OpResult String :=
  match findById store id with
  | none => { trace := [], store := store,
              out := .error (.notFound "Entry not found") }
  | some e =>
    match des e.beforeImage.public_id, des e.afterImage.public_id with
    | .ok _, .ok _ =>
      { trace := [Ev.destroy e.beforeImage.public_id,
                  Ev.destroy e.afterImage.public_id, Ev.dbDelete],
        store := removeById store id, out := .ok "Entry deleted successfully" }
    | _, _ =>
      { trace := [Ev.destroy e.beforeImage.public_id,
                  Ev.destroy e.afterImage.public_id],
        store := store, out := .error (.server "Server Error") }

/-- The update paths declared by ImageSchema (`src/models/Image.js`); mongoose
casts every update against this list when `strict` is at its default. -/
def imageSchemaPaths : List String :=
  ["title", "description",
   "beforeImage.url", "beforeImage.public_id",
   "afterImage.url", "afterImage.public_id",
   "createdAt"]

/-- Mongoose strict-mode cast of a `$inc` document: paths that the schema does
not declare are stripped from the update before it reaches MongoDB. -/
def castIncPaths (incs : List (String × Int)) : List (String × Int) :=
  incs.filter (fun p => imageSchemaPaths.contains p.1)

/-- The update document of the like route (src/unnamed/part_002 line 382). -/
def likeInc : List (String × Int) := [("likes", 1)]

/-- Apply a cast `$inc` to a stored document. The only numeric path ImageSchema
declares is `createdAt`; no counter path exists. -/
def applyInc1 (d : ImageDoc) (p : String × Int) : ImageDoc :=
  if p.1 = "createdAt" then { d with createdAt := (d.createdAt + p.2).toNat } else d

/-- Fold a cast `$inc` document over a stored document. -/
def applyIncs (d : ImageDoc) (ps : List (String × Int)) : ImageDoc :=
  ps.foldl applyInc1 d

/-- Like route, variant 2 (src/unnamed/part_002 lines 380-391):
`findByIdAndUpdate(id, $inc likes 1, new: true)` — a single atomic store
operation whose update document is first cast against ImageSchema. -/
def patchLike (store : Store) (id : Nat) : OpResult ImageDoc :=
  match findById store id with
  | none => { trace := [], store := store,
              out := .error (.notFound "Image not found.") }
  | some d =>
    let d' := applyIncs d (castIncPaths likeInc)
    { trace := [Ev.dbUpdate], store := setById store id d', out := .ok d' }

/-- Lowercase fold used to model the `i` (case-insensitive) regex option. -/
def lcChars (s : String) : List Char :=
  s.data.map Char.toLower

/-- Contiguous-sublist search on character lists. -/
def charsInfix (pat : List Char) : List Char → Bool
  | [] => pat.isEmpty
  | c :: t => pat.isPrefixOf (c :: t) || charsInfix pat t

/-- Model of the MongoDB filter `field: $regex q, $options: i` for a literal
search text: case-insensitive substring containment (regex metacharacters are
not modelled). -/
def ciContains (hay pat : String) : Bool :=
  charsInfix (lcChars pat) (lcChars hay)

/-- Insert a document into a createdAt-descending list. -/
def insertByCreated (d : ImageDoc) : List ImageDoc → List ImageDoc
  | [] => [d]
  | x :: xs => if d.createdAt ≤ x.createdAt then x :: insertByCreated d xs
               else d :: x :: xs

/-- `.sort(createdAt: -1)`: order documents by creation time, descending. -/
def sortByCreatedDesc : List ImageDoc → List ImageDoc
  | [] => []
  | x :: xs => insertByCreated x (sortByCreatedDesc xs)

/-- All documents of the collection, in insertion order. -/
def docsOf (store : Store) : List ImageDoc :=
  store.map (fun p => p.2)

/-- List route, variant 1 (src/unnamed/part_002 lines 54-71): when a non-empty
search text is present, filter by `$or` of case-insensitive title/description
containment, then sort by createdAt descending. -/
def listV1 (store : Store) (q : Option String) : List ImageDoc :=
  if isBlank q then sortByCreatedDesc (docsOf store)
  else
    let qs := q.getD ""
    sortByCreatedDesc
      ((docsOf store).filter (fun d => ciContains d.title qs || ciContains d.description qs))

/-- List route, variant 3 (src/unnamed/part_003 lines 30-49): search the titles
first; only when no title matches, search the descriptions instead. -/
def listV3 (store : Store) (q : Option String) : List ImageDoc :=
  if isBlank q then sortByCreatedDesc (docsOf store)
  else
    let qs := q.getD ""
    let titleMatches :=
      sortByCreatedDesc ((docsOf store).filter (fun d => ciContains d.title qs))
    if titleMatches.isEmpty then
      sortByCreatedDesc ((docsOf store).filter (fun d => ciContains d.description qs))
    else titleMatches

/-! ### Trace predicates used by the ordering and concurrency claims -/

/-- An upload of side `s` is issued strictly before a destroy of `oldId`. -/
def uploadPrecedesDestroy (tr : List Ev) (oldId : String) (s : Side) : Prop :=
  ∃ i : Fin tr.length, ∃ j : Fin tr.length,
    i.val < j.val ∧ tr.get i = Ev.uploadIssue s ∧ tr.get j = Ev.destroy oldId

/-- Is this event the start of an upload? -/
def isIssue : Ev → Bool
  | .uploadIssue _ => true
  | _ => false

/-- Is this event the completion of an upload? -/
def isDone : Ev → Bool
  | .uploadDone _ _ => true
  | _ => false

/-- Is this event the document insert? -/
def isInsert : Ev → Bool
  | .dbInsert => true
  | _ => false

/-- Exactly two uploads are started and both are started before any upload
completes: the `Promise.all` fan-out of two concurrently issued uploads. -/
def concurrentFanOut2 (tr : List Ev) : Prop :=
  tr.countP isIssue = 2 ∧ (tr.takeWhile (fun e => !isDone e)).countP isIssue = 2

/-- If the document is inserted at all, both uploads completed beforehand. -/
def insertWaitsForUploads (tr : List Ev) : Prop :=
  Ev.dbInsert ∈ tr → (tr.takeWhile (fun e => !isInsert e)).countP isDone = 2

instance (tr : List Ev) (oldId : String) (s : Side) :
    Decidable (uploadPrecedesDestroy tr oldId s) := by
  unfold uploadPrecedesDestroy; infer_instance

instance (tr : List Ev) : Decidable (concurrentFanOut2 tr) := by
  unfold concurrentFanOut2; infer_instance

instance (tr : List Ev) : Decidable (insertWaitsForUploads tr) := by
  unfold insertWaitsForUploads; infer_instance

/-! ### Concrete fixtures used by witnesses and counterexamples -/

/-- Deterministic always-succeeding upload oracle. -/
def upOK : Up := fun b =>
  .ok { secure_url := "https://res/u" ++ toString b,
        public_id := "before-after/p" ++ toString b,
        eagerUrl := "https://res/e" ++ toString b }

/-- Always-failing upload oracle. -/
def upFail : Up := fun _ => .error ("network")

/-- Upload oracle for which exactly buffer 0 fails. -/
def upMix : Up := fun b => if b == 0 then .error ("network") else upOK b

/-- Always-succeeding destroy oracle. -/
def desOK : Des := fun _ => .ok ()

/-- Always-failing destroy oracle. -/
def desFail : Des := fun _ => .error ("network")

/-- Destroy oracle failing exactly on the fixture's before-side identifier. -/
def desMix : Des := fun pid =>
  if pid == "before-after/b0" then .error ("network") else .ok ()

/-- Fixture upload result for buffer 0 under `upOK`. -/
def rbW : CloudResult :=
  { secure_url := "https://res/u0", public_id := "before-after/p0",
    eagerUrl := "https://res/e0" }

/-- Fixture upload result for buffer 1 under `upOK`. -/
def raW : CloudResult :=
  { secure_url := "https://res/u1", public_id := "before-after/p1",
    eagerUrl := "https://res/e1" }

/-- A stored entry with two real (non-placeholder) assets. -/
def docA : ImageDoc :=
  { title := "Kitchen", description := "Remodel",
    beforeImage := { url := "https://res/b0", public_id := "before-after/b0" },
    afterImage := { url := "https://res/a0", public_id := "before-after/a0" },
    createdAt := 5 }

/-- A one-document store holding `docA` under identity 1. -/
def storeA : Store := [(1, docA)]

/-- A stored entry whose before side is a synthesized placeholder reference. -/
def docP : ImageDoc := { docA with beforeImage := placeholderBefore 9 }

/-- A one-document store holding `docP` under identity 1. -/
def storeP : Store := [(1, docP)]

/-! ### Helper lemmas -/

theorem isPrefixOf_append_right (t : List Char) :
    ∀ l₁ l₂ : List Char, l₁.isPrefixOf l₂ = true → l₁.isPrefixOf (l₂ ++ t) = true := by
  intro l₁
  induction l₁ with
  | nil => intro l₂ _; simp [List.isPrefixOf]
  | cons a as ih =>
    intro l₂ h
    cases l₂ with
    | nil => simp [List.isPrefixOf] at h
    | cons b bs =>
      simp only [List.cons_append, List.isPrefixOf, Bool.and_eq_true] at h ⊢
      exact ⟨h.1, ih bs h.2⟩

theorem isPlaceholderId_placeholderBefore (now : Nat) :
    isPlaceholderId (placeholderBefore now).public_id = true := by
  show ("placeholders/").data.isPrefixOf
    (("placeholders/no-image-" ++ toString now).data) = true
  rw [String.data_append]
  exact isPrefixOf_append_right _ _ _ (by decide)

theorem mem_insertByCreated {a d : ImageDoc} :
    ∀ {l : List ImageDoc}, a ∈ insertByCreated d l ↔ a = d ∨ a ∈ l := by
  intro l
  induction l with
  | nil => simp [insertByCreated]
  | cons x xs ih =>
    by_cases h : d.createdAt ≤ x.createdAt
    · simp only [insertByCreated, if_pos h, List.mem_cons, ih]
      tauto
    · simp only [insertByCreated, if_neg h, List.mem_cons]

theorem mem_sortByCreatedDesc {a : ImageDoc} :
    ∀ {l : List ImageDoc}, a ∈ sortByCreatedDesc l ↔ a ∈ l := by
  intro l
  induction l with
  | nil => simp [sortByCreatedDesc]
  | cons x xs ih =>
    simp [sortByCreatedDesc, mem_insertByCreated, ih]

theorem replaceSide_destroy_ok {up : Up} {des : Des} {eager : Bool} {oldId : String}
    {bb : Buffer} {s : Side} {msg : String} {r : CloudResult}
    (hd : des oldId = .ok ()) (hu : up bb = .ok r) :
    replaceSide up des eager true oldId bb s msg =
      ([Ev.destroy oldId, Ev.uploadIssue s, Ev.uploadDone s r.public_id],
       .ok (if eager then toAssetEager r else toAsset r)) := by
  simp [replaceSide, hd, hu]

theorem replaceSide_noDestroy_ok {up : Up} {des : Des} {eager : Bool} {oldId : String}
    {bb : Buffer} {s : Side} {msg : String} {r : CloudResult}
    (hu : up bb = .ok r) :
    replaceSide up des eager false oldId bb s msg =
      ([Ev.uploadIssue s, Ev.uploadDone s r.public_id],
       .ok (if eager then toAssetEager r else toAsset r)) := by
  simp [replaceSide, hu]

theorem sideStep_none {up : Up} {des : Des} {eager dd : Bool} {oldId : String}
    {s : Side} {msg : String} :
    sideStep up des eager dd oldId none s msg = ([], .ok none) := rfl

theorem sideStep_some_destroy_ok {up : Up} {des : Des} {eager : Bool} {oldId : String}
    {bb : Buffer} {s : Side} {msg : String} {r : CloudResult}
    (hd : des oldId = .ok ()) (hu : up bb = .ok r) :
    sideStep up des eager true oldId (some bb) s msg =
      ([Ev.destroy oldId, Ev.uploadIssue s, Ev.uploadDone s r.public_id],
       .ok (some (if eager then toAssetEager r else toAsset r))) := by
  simp [sideStep, replaceSide_destroy_ok hd hu]

/-- Every destroy event a side step emits names the side's old identifier, and
only when the destroy was not suppressed. -/
theorem sideStep_destroy_mem {up : Up} {des : Des} {eager dd : Bool} {oldId : String}
    {buf : Option Buffer} {s : Side} {msg : String} {pid : String}
    (h : Ev.destroy pid ∈ (sideStep up des eager dd oldId buf s msg).1) :
    pid = oldId ∧ dd = true := by
  cases buf with
  | none => simp [sideStep] at h
  | some bb =>
    cases dd with
    | false =>
      cases hu : up bb with
      | error e => simp [sideStep, replaceSide, hu] at h
      | ok r => simp [sideStep, replaceSide, hu] at h
    | true =>
      cases hd : des oldId with
      | error e =>
        simp [sideStep, replaceSide, hd] at h
        simp [h]
      | ok u =>
        cases hu : up bb with
        | error e =>
          simp [sideStep, replaceSide, hd, hu] at h
          simp [h]
        | ok r =>
          simp [sideStep, replaceSide, hd, hu] at h
          simp [h]

/-! ### C1 -/

/-- Claim C1 counterexample: updating the after side of the stored entry with a
new buffer, the route calls `cloudinary.uploader.destroy` on the old identifier
(`before-after/a0`) and only afterwards issues the upload of the new buffer —
there is no position in the trace where the upload precedes the destroy, refuting
the claimed upload-before-delete ordering. -/
theorem C1_counterexample :
    Ev.destroy ("before-after/a0") ∈
      (updateV3 upOK desOK storeA 1 none none none (some 2)).trace ∧
    Ev.uploadIssue Side.after ∈
      (updateV3 upOK desOK storeA 1 none none none (some 2)).trace ∧
    ¬ uploadPrecedesDestroy
        ((updateV3 upOK desOK storeA 1 none none none (some 2)).trace)
        ("before-after/a0") Side.after := by
  decide

/-- Claim C1, amended: for every update request that supplies a new image buffer
for a side of an existing entry, the route issues the DELETE of that side's old
remote object FIRST and only then uploads the new buffer (the reverse of the
claimed order), and the identifier passed to the delete equals the identifier
stored in the pre-update record for that side. This holds in all three update
variants (for variant 2's before side, when the stored reference is not a
placeholder). -/
theorem C1_delete_before_upload
    (up : Up) (des : Des) (store : Store) (id : Nat) (tOpt dOpt : Option String)
    (entry : ImageDoc) (bb ab : Buffer) (rb ra : CloudResult)
    (hfind : findById store id = some entry)
    (hdb : des entry.beforeImage.public_id = .ok ())
    (hda : des entry.afterImage.public_id = .ok ())
    (hub : up bb = .ok rb) (hua : up ab = .ok ra)
    (hg : v2BeforeDestroyGuard entry = true) :
    (updateV1 up des store id tOpt dOpt (some bb) (some ab)).trace =
      [Ev.destroy entry.beforeImage.public_id, Ev.uploadIssue .before,
       Ev.uploadDone .before rb.public_id,
       Ev.destroy entry.afterImage.public_id, Ev.uploadIssue .after,
       Ev.uploadDone .after ra.public_id, Ev.dbUpdate]
    ∧ (updateV2 up des store id tOpt dOpt (some bb) (some ab)).trace =
      [Ev.destroy entry.beforeImage.public_id, Ev.uploadIssue .before,
       Ev.uploadDone .before rb.public_id,
       Ev.destroy entry.afterImage.public_id, Ev.uploadIssue .after,
       Ev.uploadDone .after ra.public_id, Ev.dbUpdate]
    ∧ (updateV3 up des store id tOpt dOpt (some bb) (some ab)).trace.take 6 =
      [Ev.destroy entry.beforeImage.public_id, Ev.uploadIssue .before,
       Ev.uploadDone .before rb.public_id,
       Ev.destroy entry.afterImage.public_id, Ev.uploadIssue .after,
       Ev.uploadDone .after ra.public_id]
    ∧ (updateV3 up des store id tOpt dOpt (some bb) none).trace.take 3 =
      [Ev.destroy entry.beforeImage.public_id, Ev.uploadIssue .before,
       Ev.uploadDone .before rb.public_id]
    ∧ (updateV3 up des store id tOpt dOpt none (some ab)).trace.take 3 =
      [Ev.destroy entry.afterImage.public_id, Ev.uploadIssue .after,
       Ev.uploadDone .after ra.public_id] := by
  refine ⟨?_, ?_, ?_, ?_, ?_⟩
  · simp [updateV1, hfind, sideStep_some_destroy_ok hdb hub,
      sideStep_some_destroy_ok hda hua]
  · simp [updateV2, hfind, hg, sideStep_some_destroy_ok hdb hub,
      sideStep_some_destroy_ok hda hua]
  · simp only [updateV3, hfind, sideStep_some_destroy_ok hdb hub,
      sideStep_some_destroy_ok hda hua]
    split <;> split <;> simp
  · simp only [updateV3, hfind, sideStep_some_destroy_ok hdb hub, sideStep_none]
    split <;> split <;> simp
  · simp only [updateV3, hfind, sideStep_some_destroy_ok hda hua, sideStep_none]
    split <;> split <;> simp

/-- Witness for `C1_delete_before_upload` at the concrete fixture store. -/
theorem C1_witness :
    (updateV1 upOK desOK storeA 1 none none (some 0) (some 1)).trace =
      [Ev.destroy ("before-after/b0"), Ev.uploadIssue .before,
       Ev.uploadDone .before ("before-after/p0"),
       Ev.destroy ("before-after/a0"), Ev.uploadIssue .after,
       Ev.uploadDone .after ("before-after/p1"), Ev.dbUpdate]
    ∧ (updateV2 upOK desOK storeA 1 none none (some 0) (some 1)).trace =
      [Ev.destroy ("before-after/b0"), Ev.uploadIssue .before,
       Ev.uploadDone .before ("before-after/p0"),
       Ev.destroy ("before-after/a0"), Ev.uploadIssue .after,
       Ev.uploadDone .after ("before-after/p1"), Ev.dbUpdate]
    ∧ (updateV3 upOK desOK storeA 1 none none (some 0) (some 1)).trace.take 6 =
      [Ev.destroy ("before-after/b0"), Ev.uploadIssue .before,
       Ev.uploadDone .before ("before-after/p0"),
       Ev.destroy ("before-after/a0"), Ev.uploadIssue .after,
       Ev.uploadDone .after ("before-after/p1")]
    ∧ (updateV3 upOK desOK storeA 1 none none (some 0) none).trace.take 3 =
      [Ev.destroy ("before-after/b0"), Ev.uploadIssue .before,
       Ev.uploadDone .before ("before-after/p0")]
    ∧ (updateV3 upOK desOK storeA 1 none none none (some 1)).trace.take 3 =
      [Ev.destroy ("before-after/a0"), Ev.uploadIssue .after,
       Ev.uploadDone .after ("before-after/p1")] :=
  C1_delete_before_upload upOK desOK storeA 1 none none docA 0 1 rbW raW
    rfl rfl rfl rfl rfl (by decide)

/-! ### C2 -/

/-- Every destroy call the placeholder-aware update route makes names either the
pre-update before-side identifier — and then only when the placeholder guard
allowed the destroy — or the pre-update after-side identifier. -/
theorem updateV2_destroy_mem {up : Up} {des : Des} {store : Store} {id : Nat}
    {tOpt dOpt : Option String} {beforeBuf afterBuf : Option Buffer}
    {entry : ImageDoc} {pid : String}
    (hfind : findById store id = some entry)
    (h : Ev.destroy pid ∈ (updateV2 up des store id tOpt dOpt beforeBuf afterBuf).trace) :
    (pid = entry.beforeImage.public_id ∧ v2BeforeDestroyGuard entry = true)
    ∨ pid = entry.afterImage.public_id := by
  rcases hsb : sideStep up des false (v2BeforeDestroyGuard entry)
      entry.beforeImage.public_id beforeBuf Side.before ("Failed to update entry.")
    with ⟨tb, resb⟩
  have hsb1 : (sideStep up des false (v2BeforeDestroyGuard entry)
      entry.beforeImage.public_id beforeBuf Side.before ("Failed to update entry.")).1
      = tb := by rw [hsb]
  rcases hsa : sideStep up des false true entry.afterImage.public_id afterBuf
      Side.after ("Failed to update entry.") with ⟨ta, resa⟩
  have hsa1 : (sideStep up des false true entry.afterImage.public_id afterBuf
      Side.after ("Failed to update entry.")).1 = ta := by rw [hsa]
  cases resb with
  | error e =>
    simp only [updateV2, hfind, hsb] at h
    have hm := sideStep_destroy_mem (hsb1 ▸ h)
    exact Or.inl ⟨hm.1, hm.2⟩
  | ok nb =>
    cases resa with
    | error e =>
      simp only [updateV2, hfind, hsb, hsa] at h
      rcases List.mem_append.mp h with hb | ha
      · have hm := sideStep_destroy_mem (hsb1 ▸ hb)
        exact Or.inl ⟨hm.1, hm.2⟩
      · exact Or.inr (sideStep_destroy_mem (hsa1 ▸ ha)).1
    | ok na =>
      simp only [updateV2, hfind, hsa, hsb] at h
      rcases List.mem_append.mp h with hba | hu
      · rcases List.mem_append.mp hba with hb | ha
        · have hm := sideStep_destroy_mem (hsb1 ▸ hb)
          exact Or.inl ⟨hm.1, hm.2⟩
        · exact Or.inr (sideStep_destroy_mem (hsa1 ▸ ha)).1
      · simp at hu

/-- Whatever record the optional-before create persists, its after side is the
genuine upload result — so as long as the Object Store never mints identifiers
carrying the placeholder marker, every reachable record has a real after-side
identifier, discharging the hypothesis of the C2 theorem below. -/
theorem createV2_after_from_upload
    (up : Up) (store : Store) (now : Nat) (t d : Option String)
    (beforeBuf : Option Buffer) (ab : Buffer) (doc : ImageDoc)
    (h : (createV2 up store now t d beforeBuf (some ab)).out = .ok doc) :
    ∃ ra, up ab = .ok ra ∧ doc.afterImage = toAsset ra := by
  rcases hua : up ab with e | ra
  · simp [createV2, hua] at h
  · refine ⟨ra, rfl, ?_⟩
    cases beforeBuf with
    | none =>
      simp only [createV2, hua, persistNew] at h
      revert h
      split
      · intro h
        simp only [Except.ok.injEq] at h
        subst h
        rfl
      · intro h; cases h
    | some bb =>
      rcases hub : up bb with e2 | rb
      · simp [createV2, hua, hub] at h
      · simp only [createV2, hua, hub, persistNew] at h
        revert h
        split
        · intro h
          simp only [Except.ok.injEq] at h
          subst h
          rfl
        · intro h; cases h

/-- Claim C2: a placeholder identifier is never passed to the Object Store
delete operation. For any update through the placeholder-aware route, and for
any entry deletion through it, every identifier handed to
`cloudinary.uploader.destroy` fails the placeholder-marker test — given that the
stored after-side identifier is real (which the creation route guarantees, since
the after side is always a genuine upload). In particular, replacing a side whose
stored reference is a placeholder issues no delete for it. -/
theorem C2_placeholder_never_deleted
    (up : Up) (des : Des) (store : Store) (id : Nat) (tOpt dOpt : Option String)
    (beforeBuf afterBuf : Option Buffer) (entry : ImageDoc) (pid : String)
    (hfind : findById store id = some entry)
    (hAfterReal : isPlaceholderId entry.afterImage.public_id = false) :
    (Ev.destroy pid ∈ (updateV2 up des store id tOpt dOpt beforeBuf afterBuf).trace →
      isPlaceholderId pid = false)
    ∧ (Ev.destroy pid ∈ (deleteV2 des store id).trace →
      isPlaceholderId pid = false) := by
  constructor
  · intro h
    rcases updateV2_destroy_mem hfind h with ⟨hpid, hg⟩ | hpid
    · simp only [v2BeforeDestroyGuard, Bool.and_eq_true, Bool.not_eq_true'] at hg
      rw [hpid]
      exact hg.2
    · rw [hpid]; exact hAfterReal
  · intro h
    rcases hda : des entry.afterImage.public_id with e | u
    · simp only [deleteV2, hfind, hda] at h
      simp at h
      rw [h]; exact hAfterReal
    · by_cases hg : v2BeforeDestroyGuard entry = true
      · rcases hdb : des entry.beforeImage.public_id with e2 | u2 <;>
        · simp only [deleteV2, hfind, hda, hdb, hg, if_true] at h
          simp at h
          rcases h with h | h
          · rw [h]; exact hAfterReal
          · rw [h]
            simp only [v2BeforeDestroyGuard, Bool.and_eq_true, Bool.not_eq_true'] at hg
            exact hg.2
      · simp only [deleteV2, hfind, hda, if_neg hg] at h
        simp at h
        rw [h]; exact hAfterReal

/-- Witness for `C2_placeholder_never_deleted`: the fixture store whose entry
holds a placeholder before-side reference, probing the placeholder identifier
itself. -/
theorem C2_witness :
    (Ev.destroy ("placeholders/no-image-9") ∈
        (updateV2 upOK desOK storeP 1 none none (some 0) none).trace →
      isPlaceholderId ("placeholders/no-image-9") = false)
    ∧ (Ev.destroy ("placeholders/no-image-9") ∈ (deleteV2 desOK storeP 1).trace →
      isPlaceholderId ("placeholders/no-image-9") = false) :=
  C2_placeholder_never_deleted upOK desOK storeP 1 none none (some 0) none docP
    ("placeholders/no-image-9") rfl (by decide)

/-! ### C3 -/

/-- Claim C3: whenever a required Cloudinary upload fails during a create
request, every create variant answers with the upload-failure error and writes
nothing to the document store — the store is unchanged and no insert event is
emitted. `up1` is an uploader failing on the before buffer (after the after
buffer succeeded, exercising variant 2's sequential path), `up2` one failing on
the required after buffer. -/
theorem C3_upload_failure_no_record
    (up1 up2 : Up) (store : Store) (now : Nat) (t d : Option String)
    (bb ab : Buffer) (beforeBuf : Option Buffer) (ra : CloudResult) (e1 e2 : String)
    (h1b : up1 bb = .error e1) (h1a : up1 ab = .ok ra)
    (h2a : up2 ab = .error e2)
    (ht : isBlank t = false) (hd : isBlank d = false) :
    ((createV1 up1 store now t d (some bb) (some ab)).out
        = .error (.server ("Failed to upload images."))
      ∧ (createV1 up1 store now t d (some bb) (some ab)).store = store
      ∧ Ev.dbInsert ∉ (createV1 up1 store now t d (some bb) (some ab)).trace)
    ∧ ((createV1 up2 store now t d (some bb) (some ab)).out
        = .error (.server ("Failed to upload images."))
      ∧ (createV1 up2 store now t d (some bb) (some ab)).store = store
      ∧ Ev.dbInsert ∉ (createV1 up2 store now t d (some bb) (some ab)).trace)
    ∧ ((createV2 up2 store now t d beforeBuf (some ab)).out
        = .error (.server ("Failed to upload image set."))
      ∧ (createV2 up2 store now t d beforeBuf (some ab)).store = store
      ∧ Ev.dbInsert ∉ (createV2 up2 store now t d beforeBuf (some ab)).trace)
    ∧ ((createV2 up1 store now t d (some bb) (some ab)).out
        = .error (.server ("Failed to upload image set."))
      ∧ (createV2 up1 store now t d (some bb) (some ab)).store = store
      ∧ Ev.dbInsert ∉ (createV2 up1 store now t d (some bb) (some ab)).trace)
    ∧ ((createV3 up1 store now t d (some bb) (some ab)).out
        = .error (.server ("Failed to upload images."))
      ∧ (createV3 up1 store now t d (some bb) (some ab)).store = store
      ∧ Ev.dbInsert ∉ (createV3 up1 store now t d (some bb) (some ab)).trace)
    ∧ ((createV3 up2 store now t d (some bb) (some ab)).out
        = .error (.server ("Failed to upload images."))
      ∧ (createV3 up2 store now t d (some bb) (some ab)).store = store
      ∧ Ev.dbInsert ∉ (createV3 up2 store now t d (some bb) (some ab)).trace) := by
  rcases h2b : up2 bb with e2b | r2b <;>
    refine ⟨?_, ?_, ?_, ?_, ?_, ?_⟩ <;>
      simp [createV1, createV2, createV3, h1b, h1a, h2a, h2b, ht, hd]

/-- Witness for `C3_upload_failure_no_record`: `upMix` fails on buffer 0 and
succeeds on buffer 1, `upFail` fails on every buffer. -/
theorem C3_witness :
    (createV1 upMix [] 3 (some ("t")) (some ("d")) (some 0) (some 1)).out
      = .error (.server ("Failed to upload images."))
    ∧ (createV2 upFail [] 3 (some ("t")) (some ("d")) (some 0) (some 1)).out
      = .error (.server ("Failed to upload image set."))
    ∧ (createV2 upMix [] 3 (some ("t")) (some ("d")) (some 0) (some 1)).store = []
    ∧ Ev.dbInsert ∉ (createV3 upMix [] 3 (some ("t")) (some ("d")) (some 0) (some 1)).trace := by
  obtain ⟨A, B, C, D, E, F⟩ :=
    C3_upload_failure_no_record upMix upFail [] 3 (some ("t")) (some ("d")) 0 1
      (some 0) raW ("network") ("network") rfl rfl rfl rfl rfl
  exact ⟨A.1, C.1, D.2.1, E.2.2⟩

/-! ### C4 -/

/-- Claim C4 counterexample: a create request through the optional-before
variant with BOTH buffers supplied does start two uploads, but they are not a
concurrent fan-out — the before upload is only issued after the after upload
has already completed, refuting the claimed fan-out of exactly 2. -/
theorem C4_counterexample :
    (createV2 upOK [] 7 (some ("t")) (some ("d")) (some 0) (some 1)).trace.countP
        isIssue = 2
    ∧ ¬ concurrentFanOut2
        ((createV2 upOK [] 7 (some ("t")) (some ("d")) (some 0) (some 1)).trace) := by
  decide

/-- Claim C4, amended: in the two `Promise.all` create variants (part_002's first
router and part_003's router) the two uploads are issued concurrently — both are
started before either completion is consumed — and the Entry Record insert
happens only after both uploads completed; in the optional-before variant
(part_002's second router) the uploads are sequential instead: the after upload
is issued and completes before the before upload is issued. -/
theorem C4_concurrent_fanout
    (up : Up) (store : Store) (now : Nat) (t d : Option String)
    (bb ab : Buffer) (rb ra : CloudResult)
    (hub : up bb = .ok rb) (hua : up ab = .ok ra)
    (ht : isBlank t = false) (hd : isBlank d = false) :
    concurrentFanOut2 ((createV1 up store now t d (some bb) (some ab)).trace)
    ∧ insertWaitsForUploads ((createV1 up store now t d (some bb) (some ab)).trace)
    ∧ concurrentFanOut2 ((createV3 up store now t d (some bb) (some ab)).trace)
    ∧ insertWaitsForUploads ((createV3 up store now t d (some bb) (some ab)).trace)
    ∧ (createV2 up store now t d (some bb) (some ab)).trace.take 3 =
      [Ev.uploadIssue .after, Ev.uploadDone .after ra.public_id,
       Ev.uploadIssue .before] := by
  refine ⟨?_, ?_, ?_, ?_, ?_⟩
  · simp only [createV1, hub, hua, persistNew]
    split <;> simp [concurrentFanOut2, isIssue, isDone]
  · simp only [createV1, hub, hua, persistNew]
    split <;> simp [insertWaitsForUploads, isDone, isInsert]
  · simp [createV3, ht, hd, hub, hua, persistNew]
    split <;> simp [concurrentFanOut2, isIssue, isDone]
  · simp [createV3, ht, hd, hub, hua, persistNew]
    split <;> simp [insertWaitsForUploads, isDone, isInsert]
  · simp only [createV2, hua, hub, persistNew]
    split <;> simp

/-- Witness for `C4_concurrent_fanout` on the deterministic fixture uploader. -/
theorem C4_witness :
    concurrentFanOut2 ((createV1 upOK [] 3 (some ("t")) (some ("d")) (some 0) (some 1)).trace)
    ∧ insertWaitsForUploads
        ((createV1 upOK [] 3 (some ("t")) (some ("d")) (some 0) (some 1)).trace)
    ∧ concurrentFanOut2 ((createV3 upOK [] 3 (some ("t")) (some ("d")) (some 0) (some 1)).trace)
    ∧ insertWaitsForUploads
        ((createV3 upOK [] 3 (some ("t")) (some ("d")) (some 0) (some 1)).trace)
    ∧ (createV2 upOK [] 3 (some ("t")) (some ("d")) (some 0) (some 1)).trace.take 3 =
      [Ev.uploadIssue .after, Ev.uploadDone .after ("before-after/p1"),
       Ev.uploadIssue .before] :=
  C4_concurrent_fanout upOK [] 3 (some ("t")) (some ("d")) 0 1 rbW raW
    rfl rfl rfl rfl

/-! ### C5 -/

/-- Claim C5 counterexample: a create request with the required `title` absent
(but both buffers present) sent to the preview variant is NOT rejected up front:
both uploads are issued — network calls occur on a validation-failing path — and
the request ends in the generic 500 upload-failure response rather than a
validation failure listing missing fields. -/
theorem C5_counterexample :
    Ev.uploadIssue Side.before ∈
      (createV1 upOK [] 3 none (some ("d")) (some 0) (some 1)).trace
    ∧ Ev.uploadIssue Side.after ∈
      (createV1 upOK [] 3 none (some ("d")) (some 0) (some 1)).trace
    ∧ (createV1 upOK [] 3 none (some ("d")) (some 0) (some 1)).out
      = .error (.server ("Failed to upload images.")) :=
  ⟨by decide, by decide, rfl⟩

/-- Claim C5, amended: each create variant rejects a request missing its
up-front-checked required inputs with a fixed-message 400 response and performs
no network call and no store write on that path — but the up-front check covers
only the image buffers in the two part_002 variants (a missing or empty title or
description there is noticed only at persistence time, after the uploads have
already been issued), and the 400 message is a fixed string that does not list
the missing fields. The part_003 variant checks title, description and both
buffers up front. -/
theorem C5_validation_guards
    (up : Up) (store : Store) (now : Nat) (t d : Option String)
    (bb ab beforeBuf afterBuf : Option Buffer)
    (ht : isBlank t = true) (ha : ab = none) :
    ((createV1 up store now t d bb ab).out
        = .error (.badRequest ("Both \"before\" and \"after\" images are required."))
      ∧ (createV1 up store now t d bb ab).trace = []
      ∧ (createV1 up store now t d bb ab).store = store)
    ∧ ((createV2 up store now t d bb ab).out
        = .error (.badRequest ("The \"After\" image is required."))
      ∧ (createV2 up store now t d bb ab).trace = []
      ∧ (createV2 up store now t d bb ab).store = store)
    ∧ ((createV3 up store now t d bb ab).out
        = .error (.badRequest ("All fields are required."))
      ∧ (createV3 up store now t d bb ab).trace = []
      ∧ (createV3 up store now t d bb ab).store = store)
    ∧ ((createV3 up store now t d beforeBuf afterBuf).out
        = .error (.badRequest ("All fields are required."))
      ∧ (createV3 up store now t d beforeBuf afterBuf).trace = []
      ∧ (createV3 up store now t d beforeBuf afterBuf).store = store) := by
  subst ha
  refine ⟨?_, ?_, ?_, ?_⟩
  · cases bb <;> simp [createV1]
  · simp [createV2]
  · simp [createV3]
  · simp [createV3, ht]

/-- Witness for `C5_validation_guards`: absent title and absent after buffer. -/
theorem C5_witness :
    ((createV1 upOK [] 3 none (some ("d")) (some 0) none).out
        = .error (.badRequest ("Both \"before\" and \"after\" images are required."))
      ∧ (createV1 upOK [] 3 none (some ("d")) (some 0) none).trace = []
      ∧ (createV1 upOK [] 3 none (some ("d")) (some 0) none).store = [])
    ∧ ((createV2 upOK [] 3 none (some ("d")) (some 0) none).out
        = .error (.badRequest ("The \"After\" image is required."))
      ∧ (createV2 upOK [] 3 none (some ("d")) (some 0) none).trace = []
      ∧ (createV2 upOK [] 3 none (some ("d")) (some 0) none).store = [])
    ∧ ((createV3 upOK [] 3 none (some ("d")) (some 0) none).out
        = .error (.badRequest ("All fields are required."))
      ∧ (createV3 upOK [] 3 none (some ("d")) (some 0) none).trace = []
      ∧ (createV3 upOK [] 3 none (some ("d")) (some 0) none).store = [])
    ∧ ((createV3 upOK [] 3 none (some ("d")) (some 0) (some 1)).out
        = .error (.badRequest ("All fields are required."))
      ∧ (createV3 upOK [] 3 none (some ("d")) (some 0) (some 1)).trace = []
      ∧ (createV3 upOK [] 3 none (some ("d")) (some 0) (some 1)).store = []) :=
  C5_validation_guards upOK [] 3 none (some ("d")) (some 0) none (some 0) (some 1)
    rfl rfl

/-! ### C6 -/

/-- Claim C6: in every delete variant, if a remote destroy of a non-placeholder
asset fails, the whole request answers with the 500 deletion-failure response,
no document delete is performed, and the store (hence the Entry Record) is left
unchanged, so the deletion can be retried. `des1` fails on the entry's
before-side identifier (after the after-side destroy succeeded), `des2` fails on
the after-side identifier. -/
theorem C6_delete_failure_keeps_record
    (des1 des2 : Des) (store : Store) (id : Nat) (entry : ImageDoc) (m1 m2 : String)
    (hfind : findById store id = some entry)
    (hg : v2BeforeDestroyGuard entry = true)
    (h2a : des2 entry.afterImage.public_id = .error m2)
    (h1a : des1 entry.afterImage.public_id = .ok ())
    (h1b : des1 entry.beforeImage.public_id = .error m1) :
    ((deleteV2 des2 store id).out = .error (.server ("Failed to delete entry."))
      ∧ (deleteV2 des2 store id).store = store
      ∧ Ev.dbDelete ∉ (deleteV2 des2 store id).trace)
    ∧ ((deleteV2 des1 store id).out = .error (.server ("Failed to delete entry."))
      ∧ (deleteV2 des1 store id).store = store
      ∧ Ev.dbDelete ∉ (deleteV2 des1 store id).trace)
    ∧ ((deleteV1 des1 store id).out = .error (.server ("Failed to delete entry."))
      ∧ (deleteV1 des1 store id).store = store
      ∧ Ev.dbDelete ∉ (deleteV1 des1 store id).trace)
    ∧ ((deleteV3 des1 store id).out = .error (.server ("Server Error"))
      ∧ (deleteV3 des1 store id).store = store
      ∧ Ev.dbDelete ∉ (deleteV3 des1 store id).trace)
    ∧ ((deleteV1 des2 store id).out = .error (.server ("Failed to delete entry."))
      ∧ (deleteV1 des2 store id).store = store
      ∧ Ev.dbDelete ∉ (deleteV1 des2 store id).trace)
    ∧ ((deleteV3 des2 store id).out = .error (.server ("Server Error"))
      ∧ (deleteV3 des2 store id).store = store
      ∧ Ev.dbDelete ∉ (deleteV3 des2 store id).trace) := by
  refine ⟨?_, ?_, ?_, ?_, ?_, ?_⟩
  · simp [deleteV2, hfind, h2a]
  · simp [deleteV2, hfind, h1a, h1b, hg]
  · simp [deleteV1, hfind, h1a, h1b]
  · simp [deleteV3, hfind, h1a, h1b]
  · rcases h2b : des2 entry.beforeImage.public_id with e | u <;>
      simp [deleteV1, hfind, h2a, h2b]
  · rcases h2b : des2 entry.beforeImage.public_id with e | u <;>
      simp [deleteV3, hfind, h2a, h2b]

/-- Witness for `C6_delete_failure_keeps_record`: `desMix` fails exactly on the
fixture entry's before-side identifier, `desFail` fails on everything. -/
theorem C6_witness :
    ((deleteV2 desFail storeA 1).out = .error (.server ("Failed to delete entry."))
      ∧ (deleteV2 desFail storeA 1).store = storeA
      ∧ Ev.dbDelete ∉ (deleteV2 desFail storeA 1).trace)
    ∧ ((deleteV2 desMix storeA 1).out = .error (.server ("Failed to delete entry."))
      ∧ (deleteV2 desMix storeA 1).store = storeA
      ∧ Ev.dbDelete ∉ (deleteV2 desMix storeA 1).trace)
    ∧ ((deleteV1 desMix storeA 1).out = .error (.server ("Failed to delete entry."))
      ∧ (deleteV1 desMix storeA 1).store = storeA
      ∧ Ev.dbDelete ∉ (deleteV1 desMix storeA 1).trace)
    ∧ ((deleteV3 desMix storeA 1).out = .error (.server ("Server Error"))
      ∧ (deleteV3 desMix storeA 1).store = storeA
      ∧ Ev.dbDelete ∉ (deleteV3 desMix storeA 1).trace)
    ∧ ((deleteV1 desFail storeA 1).out = .error (.server ("Failed to delete entry."))
      ∧ (deleteV1 desFail storeA 1).store = storeA
      ∧ Ev.dbDelete ∉ (deleteV1 desFail storeA 1).trace)
    ∧ ((deleteV3 desFail storeA 1).out = .error (.server ("Server Error"))
      ∧ (deleteV3 desFail storeA 1).store = storeA
      ∧ Ev.dbDelete ∉ (deleteV3 desFail storeA 1).trace) :=
  C6_delete_failure_keeps_record desMix desFail storeA 1 docA ("network") ("network")
    rfl (by decide) rfl rfl rfl

/-! ### C7 -/

/-- The synthesized placeholder identifier is never the empty string. -/
theorem placeholderBefore_pid_nonempty (now : Nat) :
    (placeholderBefore now).public_id.isEmpty = false := by
  show ("placeholders/no-image-" ++ toString now).isEmpty = false
  rw [Bool.eq_false_iff]
  intro h
  have h2 := (String.isEmpty_iff _).mp h
  have h3 := congrArg String.data h2
  rw [String.data_append] at h3
  simp at h3

/-- Claim C7: a create under the optional-before policy with no before buffer
persists a record whose before-side identifier carries the placeholder marker
(`placeholders/` prefix), and no Object Store upload is issued for the before
side — the whole network trace is the single after-side upload followed by the
document insert. -/
theorem C7_policyB_placeholder
    (up : Up) (store : Store) (now : Nat) (t d : Option String) (ab : Buffer)
    (ra : CloudResult) (hua : up ab = .ok ra)
    (ht : isBlank t = false) (hd : isBlank d = false)
    (hu1 : ra.secure_url.isEmpty = false) (hu2 : ra.public_id.isEmpty = false) :
    ∃ doc : ImageDoc,
      (createV2 up store now t d none (some ab)).out = .ok doc
      ∧ (createV2 up store now t d none (some ab)).store
        = store ++ [(freshId store, doc)]
      ∧ isPlaceholderId doc.beforeImage.public_id = true
      ∧ Ev.uploadIssue Side.before ∉ (createV2 up store now t d none (some ab)).trace
      ∧ (createV2 up store now t d none (some ab)).trace
        = [Ev.uploadIssue .after, Ev.uploadDone .after ra.public_id, Ev.dbInsert] := by
  have hvalid : validDoc
      { title := t.getD "", description := d.getD "",
        beforeImage := placeholderBefore now, afterImage := toAsset ra,
        createdAt := now } = true := by
    rcases t with _ | s
    · simp [isBlank] at ht
    rcases d with _ | s2
    · simp [isBlank] at hd
    simp only [isBlank] at ht hd
    simp only [validDoc, toAsset, placeholderBefore, Option.getD_some,
      Bool.and_eq_true, Bool.not_eq_true']
    exact ⟨⟨⟨⟨⟨ht, hd⟩, by decide⟩, placeholderBefore_pid_nonempty now⟩, hu1⟩, hu2⟩
  refine ⟨{ title := t.getD "", description := d.getD "",
            beforeImage := placeholderBefore now, afterImage := toAsset ra,
            createdAt := now }, ?_, ?_, ?_, ?_, ?_⟩
  · simp [createV2, hua, persistNew, hvalid]
  · simp [createV2, hua, persistNew, hvalid]
  · exact isPlaceholderId_placeholderBefore now
  · simp [createV2, hua, persistNew, hvalid]
  · simp [createV2, hua, persistNew, hvalid]

/-- Witness for `C7_policyB_placeholder` at the concrete fixture uploader. -/
theorem C7_witness :
    ∃ doc : ImageDoc,
      (createV2 upOK [] 12 (some ("t")) (some ("d")) none (some 1)).out = .ok doc
      ∧ (createV2 upOK [] 12 (some ("t")) (some ("d")) none (some 1)).store
        = [] ++ [(freshId [], doc)]
      ∧ isPlaceholderId doc.beforeImage.public_id = true
      ∧ Ev.uploadIssue Side.before ∉
          (createV2 upOK [] 12 (some ("t")) (some ("d")) none (some 1)).trace
      ∧ (createV2 upOK [] 12 (some ("t")) (some ("d")) none (some 1)).trace
        = [Ev.uploadIssue .after, Ev.uploadDone .after ("before-after/p1"),
           Ev.dbInsert] :=
  C7_policyB_placeholder upOK [] 12 (some ("t")) (some ("d")) 1 raW
    rfl rfl rfl rfl rfl

/-! ### C8 -/

/-- Claim C8 evaluation at the failing input. The like route issues a single
atomic `findByIdAndUpdate` with `$inc` on path `likes` — but no Image schema
variant declares a `likes` (or `likeCount`) path, so the strict-mode cast strips
the increment: the whole update document is emptied, the returned record and the
store are unchanged, and no counter is ever incremented. The not-found branch
behaves as claimed. -/
theorem C8_like_increment_stripped :
    castIncPaths likeInc = []
    ∧ (patchLike storeA 1).out = .ok docA
    ∧ (patchLike storeA 1).store = storeA
    ∧ (patchLike storeA 99).out = .error (.notFound ("Image not found.")) :=
  ⟨rfl, rfl, rfl, rfl⟩

/-! ### C9 -/

/-- Claim C9: an update request that carries no title and no description leaves
the stored title and description unchanged in whatever record the request
successfully produces — in all three update variants (variant 3 keeps them via
`||` fallback; variants 1 and 2 because mongoose strips the undefined paths from
the `$set`). -/
theorem C9_absent_text_unchanged
    (up : Up) (des : Des) (store : Store) (id : Nat)
    (beforeBuf afterBuf : Option Buffer) (entry : ImageDoc)
    (hfind : findById store id = some entry) :
    (∀ doc, (updateV1 up des store id none none beforeBuf afterBuf).out = .ok doc →
      doc.title = entry.title ∧ doc.description = entry.description)
    ∧ (∀ doc, (updateV2 up des store id none none beforeBuf afterBuf).out = .ok doc →
      doc.title = entry.title ∧ doc.description = entry.description)
    ∧ (∀ doc, (updateV3 up des store id none none beforeBuf afterBuf).out = .ok doc →
      doc.title = entry.title ∧ doc.description = entry.description) := by
  refine ⟨?_, ?_, ?_⟩
  · rcases hsb : sideStep up des true true entry.beforeImage.public_id beforeBuf
        Side.before ("Failed to update entry.") with ⟨tb, resb⟩
    rcases hsa : sideStep up des true true entry.afterImage.public_id afterBuf
        Side.after ("Failed to update entry.") with ⟨ta, resa⟩
    intro doc h
    cases resb with
    | error e => simp only [updateV1, hfind, hsb] at h; cases h
    | ok nb =>
      cases resa with
      | error e => simp only [updateV1, hfind, hsb, hsa] at h; cases h
      | ok na =>
        simp only [updateV1, hfind, hsb, hsa, Except.ok.injEq] at h
        subst h
        simp [applySet]
  · rcases hsb : sideStep up des false (v2BeforeDestroyGuard entry)
        entry.beforeImage.public_id beforeBuf Side.before ("Failed to update entry.")
      with ⟨tb, resb⟩
    rcases hsa : sideStep up des false true entry.afterImage.public_id afterBuf
        Side.after ("Failed to update entry.") with ⟨ta, resa⟩
    intro doc h
    cases resb with
    | error e => simp only [updateV2, hfind, hsb] at h; cases h
    | ok nb =>
      cases resa with
      | error e => simp only [updateV2, hfind, hsb, hsa] at h; cases h
      | ok na =>
        simp only [updateV2, hfind, hsb, hsa, Except.ok.injEq] at h
        subst h
        simp [applySet]
  · rcases hsb : sideStep up des false true entry.beforeImage.public_id beforeBuf
        Side.before ("Server Error") with ⟨tb, resb⟩
    rcases hsa : sideStep up des false true entry.afterImage.public_id afterBuf
        Side.after ("Server Error") with ⟨ta, resa⟩
    intro doc h
    cases resb with
    | error e => simp only [updateV3, hfind, hsb] at h; cases h
    | ok nb =>
      cases resa with
      | error e => simp only [updateV3, hfind, hsb, hsa] at h; cases h
      | ok na =>
        simp only [updateV3, hfind, hsb, hsa] at h
        revert h
        split
        · intro h
          simp only [Except.ok.injEq] at h
          subst h
          simp [jsOr]
        · intro h; cases h

/-- Witness for `C9_absent_text_unchanged`: the text-free update of the fixture
entry succeeds and returns the record with its stored title and description. -/
theorem C9_witness : docA.title = ("Kitchen") ∧ docA.description = ("Remodel") :=
  (C9_absent_text_unchanged upOK desOK storeA 1 none none docA rfl).1 docA rfl

/-! ### C10 -/

/-- Claim C10: list requests with a search text match case-insensitively: any
stored entry whose title contains the search text, regardless of letter case, is
included in the response of both list variants (in part_003's variant through
its title query; in part_002's through the `$or` title/description filter). -/
theorem C10_search_case_insensitive
    (store : Store) (qs : String) (doc : ImageDoc)
    (hq : qs.isEmpty = false)
    (hdoc : doc ∈ docsOf store)
    (hm : ciContains doc.title qs = true) :
    doc ∈ listV1 store (some qs) ∧ doc ∈ listV3 store (some qs) := by
  have hblank : isBlank (some qs) = true → False := by simp [isBlank, hq]
  constructor
  · unfold listV1
    rw [if_neg hblank]
    exact mem_sortByCreatedDesc.mpr
      (List.mem_filter.mpr ⟨hdoc, by simp [Option.getD_some, hm]⟩)
  · unfold listV3
    rw [if_neg hblank]
    have hmem : doc ∈ sortByCreatedDesc
        ((docsOf store).filter (fun d => ciContains d.title qs)) :=
      mem_sortByCreatedDesc.mpr (List.mem_filter.mpr ⟨hdoc, hm⟩)
    simp only [Option.getD_some]
    split
    · next hemp =>
      rw [List.isEmpty_iff] at hemp
      rw [hemp] at hmem
      simp at hmem
    · exact hmem

/-- Witness for `C10_search_case_insensitive`: the fixture entry titled
`Kitchen` is found by the differently-cased search text `kitCHEN`. -/
theorem C10_witness :
    docA ∈ listV1 storeA (some ("kitCHEN")) ∧ docA ∈ listV3 storeA (some ("kitCHEN")) :=
  C10_search_case_insensitive storeA ("kitCHEN") docA rfl (by decide) (by decide)

end LensB
